import Mathlib

/-!
Verification of the Luau fuzzing harness (fuzz/proto.cpp): a shallow
embedding of the harness's resource governor (allocator hook), execution
watchdog (interrupt callback), static-check / compile / codegen / execute
pipeline control flow, and the one-time stub type-environment construction,
together with theorems settling the specified properties.
-/

namespace LuauFuzz

/-! ## ResourceGovernor: the `allocate` hook (fuzz/proto.cpp, lines 69-87)

`heapSize` and the sizes are C `size_t` values; arithmetic is unsigned
64-bit, modelled on `Nat` with explicit reduction modulo `2 ^ 64`. -/

def WORD : Nat := 2 ^ 64

/-- The ceiling `kHeapLimit = 512 * 1024 * 1024` (line 54). -/
def kHeapLimit : Nat := 512 * 1024 * 1024

/-- Computes `a - b` on `size_t`: wrap-around subtraction modulo `2 ^ 64`. -/
def subW (a b : Nat) : Nat := (a + (WORD - b % WORD)) % WORD

/-- Computes `a + b` on `size_t`: wrap-around addition modulo `2 ^ 64`. -/
def addW (a b : Nat) : Nat := (a + b) % WORD

/-- What the allocator call did to the underlying storage: nothing at all
(early return before any `free`/`realloc`), released it via `free`, or
attempted a `realloc`. -/
inductive StorageAction
  | untouched
  | freed
  | reallocAttempted
  deriving DecidableEq, Repr

/-- Observable result of one `allocate` call: whether the returned pointer
was `NULL` (the failure sentinel for a nonzero request), the tracked
`heapSize` after the call, and the storage effect. -/
structure AllocResult where
  retNull : Bool
  heapSize : Nat
  action : StorageAction
  deriving DecidableEq, Repr

/-- The hook `allocate(ud, ptr, osize, nsize)` (lines 69-87). `heapSize` is the
tracked usage before the call; `reallocOk` is whether the system `realloc`
would succeed when attempted. The member updates `heapSize -= osize;
heapSize += nsize` happen before `realloc` is called, so the returned
`heapSize` field is the updated value even when `realloc` fails. -/
def allocate (reallocOk : Bool) (heapSize osize nsize : Nat) : AllocResult :=
  if nsize = 0 then
    { retNull := true, heapSize := subW heapSize osize, action := .freed }
  else if kHeapLimit < addW (subW heapSize osize) nsize then
    { retNull := true, heapSize := heapSize, action := .untouched }
  else
    { retNull := !reallocOk, heapSize := addW (subW heapSize osize) nsize,
      action := .reallocAttempted }

/-! ## ExecutionWatchdog: the `interrupt` callback (fuzz/proto.cpp, lines 57-67) -/

/-- What one invocation of the interrupt callback does: nothing, or raise a
guest-level runtime error through `luaL_error` (the guest's own
error-signaling mechanism; the harness itself is not crashed). -/
inductive InterruptEffect
  | noop
  | raisedRuntimeError (msg : String)
  deriving DecidableEq, Repr

/-- The callback `interrupt(L, gc)` (lines 57-67). `now` and `deadline` stand for
`std::chrono::system_clock::now()` and `interruptDeadline` on a common
clock scale; the code compares them with strict `>`. -/
def interrupt (gc : Int) (now deadline : Nat) : InterruptEffect :=
  if 0 ≤ gc then
    .noop
  else if deadline < now then
    .raisedRuntimeError "execution timed out"
  else
    .noop

/-! ## Helper lemmas about the wrap-around arithmetic -/

theorem subW_eq (a b : Nat) (hba : b ≤ a) (ha : a < WORD) : subW a b = a - b := by
  unfold subW
  have hb : b % WORD = b := Nat.mod_eq_of_lt (lt_of_le_of_lt hba ha)
  rw [hb]
  have h1 : a + (WORD - b) = (a - b) + WORD := by omega
  rw [h1, Nat.add_mod_right]
  exact Nat.mod_eq_of_lt (by omega)

theorem addW_eq (a b : Nat) (h : a + b < WORD) : addW a b = a + b :=
  Nat.mod_eq_of_lt h

/-! ## Claims about the allocator and the watchdog -/

/-- C1: for every allocator call with a nonzero requested new size, if the
computed `heapSize - osize + nsize` (the spec's `usage - oldSize + newSize`,
evaluated exactly as the code evaluates it, in unsigned 64-bit arithmetic)
exceeds the ceiling `kHeapLimit`, the call returns the failure sentinel
`NULL` with tracked usage and storage unchanged; and whenever the call
returns a non-`NULL` pointer (an accepted allocation), the tracked usage
afterwards is the computed value and does not exceed the ceiling. -/
theorem allocate_ceiling_invariant (reallocOk : Bool) (heapSize osize nsize : Nat)
    (hn : nsize ≠ 0) :
    (kHeapLimit < addW (subW heapSize osize) nsize →
      allocate reallocOk heapSize osize nsize =
        { retNull := true, heapSize := heapSize, action := .untouched }) ∧
    ((allocate reallocOk heapSize osize nsize).retNull = false →
      (allocate reallocOk heapSize osize nsize).heapSize =
          addW (subW heapSize osize) nsize ∧
        (allocate reallocOk heapSize osize nsize).heapSize ≤ kHeapLimit) := by
  unfold allocate
  rw [if_neg hn]
  by_cases h : kHeapLimit < addW (subW heapSize osize) nsize
  · rw [if_pos h]
    exact ⟨fun _ => rfl, fun hfalse => by simp at hfalse⟩
  · rw [if_neg h]
    exact ⟨fun hc => absurd hc h, fun _ => ⟨rfl, le_of_not_lt h⟩⟩

/-- Witness for C1 at concrete inputs: a request of `kHeapLimit + 1` bytes
from an empty heap is rejected without mutation, and an accepted 16-byte
request leaves usage within the ceiling. -/
theorem allocate_ceiling_invariant_witness :
    allocate true 0 0 536870913 =
        { retNull := true, heapSize := 0, action := .untouched } ∧
      (allocate true 0 0 16).heapSize ≤ kHeapLimit :=
  ⟨(allocate_ceiling_invariant true 0 0 536870913 (by decide)).1 (by decide),
   ((allocate_ceiling_invariant true 0 0 16 (by decide)).2 (by decide)).2⟩

/-- C2: for every allocator call with requested new size zero (a free), the
call unconditionally takes the free path — it never fails: the storage is
released via `free` and the conventional `NULL` return of a free is not a
failure sentinel — and the tracked usage strictly decreases by the freed
old size (any real freed block has `0 < osize ≤ heapSize`). -/
theorem allocate_free_decreases (reallocOk : Bool) (heapSize osize : Nat)
    (hpos : 0 < osize) (hle : osize ≤ heapSize) (hw : heapSize < WORD) :
    allocate reallocOk heapSize osize 0 =
        { retNull := true, heapSize := heapSize - osize, action := .freed } ∧
      (allocate reallocOk heapSize osize 0).heapSize < heapSize := by
  have h : allocate reallocOk heapSize osize 0 =
      { retNull := true, heapSize := heapSize - osize, action := .freed } := by
    unfold allocate
    rw [if_pos rfl, subW_eq heapSize osize hle hw]
  exact ⟨h, by rw [h]; exact Nat.sub_lt (lt_of_lt_of_le hpos hle) hpos⟩

/-- Witness for C2: freeing a 4-byte block from a 10-byte heap. -/
theorem allocate_free_decreases_witness :
    allocate true 10 4 0 = { retNull := true, heapSize := 6, action := .freed } ∧
      (allocate true 10 4 0).heapSize < 10 :=
  allocate_free_decreases true 10 4 (by decide) (by decide) (by decide)

/-- C9: in the grow/shrink path (`nsize ≠ 0`), when the ceiling check
passes, the tracked usage is updated to `heapSize - osize + nsize` before
`realloc` is attempted: if the system `realloc` then fails
(`reallocOk = false`), the call returns the failure sentinel `NULL` while
the tracked usage has already been mutated to the new value. (When the
ceiling check fails, C1 shows usage is left unchanged.) -/
theorem allocate_usage_mutated_before_realloc (heapSize osize nsize : Nat)
    (hn : nsize ≠ 0) (hc : addW (subW heapSize osize) nsize ≤ kHeapLimit) :
    (allocate false heapSize osize nsize).retNull = true ∧
      (allocate false heapSize osize nsize).heapSize =
        addW (subW heapSize osize) nsize ∧
      (allocate false heapSize osize nsize).action = .reallocAttempted := by
  unfold allocate
  rw [if_neg hn, if_neg (not_lt.mpr hc)]
  exact ⟨rfl, rfl, rfl⟩

/-- Witness for C9: a 16-byte request from an empty heap with a failing
system `realloc` returns `NULL` with usage already set to 16. -/
theorem allocate_usage_mutated_before_realloc_witness :
    (allocate false 0 0 16).retNull = true ∧
      (allocate false 0 0 16).heapSize = addW (subW 0 0) 16 ∧
      (allocate false 0 0 16).action = .reallocAttempted :=
  allocate_usage_mutated_before_realloc 0 0 16 (by decide) (by decide)

/-- C3: an invocation of the interrupt callback during a GC phase
(`gc ≥ 0`) is a no-op; a non-GC invocation raises the guest-level runtime
error "execution timed out" exactly when the current wall-clock time
exceeds the deadline, and otherwise does nothing; in every case the effect
is a no-op or a guest-level error raise — never a harness crash. -/
theorem interrupt_behavior (gc : Int) (now deadline : Nat) :
    (0 ≤ gc → interrupt gc now deadline = .noop) ∧
      (gc < 0 → deadline < now →
        interrupt gc now deadline = .raisedRuntimeError "execution timed out") ∧
      (gc < 0 → now ≤ deadline → interrupt gc now deadline = .noop) ∧
      (interrupt gc now deadline = .noop ∨
        interrupt gc now deadline = .raisedRuntimeError "execution timed out") := by
  unfold interrupt
  refine ⟨fun h => by rw [if_pos h], fun hg ht => ?_, fun hg ht => ?_, ?_⟩
  · rw [if_neg (not_le.mpr hg), if_pos ht]
  · rw [if_neg (not_le.mpr hg), if_neg (not_lt.mpr ht)]
  · by_cases h : 0 ≤ gc
    · exact Or.inl (by rw [if_pos h])
    · by_cases h2 : deadline < now
      · exact Or.inr (by rw [if_neg h, if_pos h2])
      · exact Or.inl (by rw [if_neg h, if_neg h2])

/-- Witness for C3 at concrete inputs: a GC-phase call is a no-op, a timed
out non-GC call raises the error, a non-GC call before the deadline is a
no-op. -/
theorem interrupt_behavior_witness :
    interrupt 1 5 3 = .noop ∧
      interrupt (-1) 5 3 = .raisedRuntimeError "execution timed out" ∧
      interrupt (-1) 3 5 = .noop :=
  ⟨(interrupt_behavior 1 5 3).1 (by decide),
   (interrupt_behavior (-1) 5 3).2.1 (by decide) (by decide),
   (interrupt_behavior (-1) 3 5).2.2.1 (by decide) (by decide)⟩

/-! ## Static check stage (fuzz/proto.cpp, lines 286-303)

Per module, the harness runs `frontend.check(name)` and then a second,
forced-autocomplete `frontend.check(name, options)` inside one
`try { ... } catch (std::exception&) {}`. The analyzer calls are external;
each pass's behaviour is an oracle: `none` = returned normally,
`some e` = threw exception `e`. -/

/-- Kind of C++ exception a check pass may throw: one derived from
`std::exception` (matched by the harness's catch clause), or any other
thrown object (not matched). -/
inductive CheckExn
  | stdException
  | nonStdException
  deriving DecidableEq, Repr

/-- One iteration of the check loop body for a single module (lines
290-302): given what each of the two passes would do if run, the result is
`.ok ranSecondPass` when control falls out of the `try`/`catch` normally
(the `Bool` records whether the forced-autocomplete pass was reached), and
`.error e` when an exception escapes the handler. The ordinary pass runs
first; if it throws, the forced-autocomplete pass is never reached. Only
`std::exception`-derived exceptions are caught. -/
def checkModule (pass1 pass2 : Option CheckExn) : Except CheckExn Bool :=
  match pass1 with
  | some .stdException => .ok false
  | some .nonStdException => .error .nonStdException
  | none =>
    match pass2 with
    | some .stdException => .ok true
    | some .nonStdException => .error .nonStdException
    | none => .ok true

/-- The `for` loop over all modules (lines 286-303): modules are checked in
order; an escaping exception aborts the loop. On normal completion the
result lists, per module, whether its forced-autocomplete pass ran. -/
def checkLoop (mods : List (Option CheckExn × Option CheckExn)) :
    Except CheckExn (List Bool) :=
  match mods with
  | [] => .ok []
  | (p1, p2) :: rest =>
    match checkModule p1 p2 with
    | .ok r =>
      match checkLoop rest with
      | .ok rs => .ok (r :: rs)
      | .error e => .error e
    | .error e => .error e

/-! ## Compile stage (fuzz/proto.cpp, lines 330-353) -/

/-- Kind of C++ exception the compile call may throw: `Luau::CompileError`
(the recoverable compile-limit violation, matched by the harness's catch
clause at line 347), or any other exception (not matched). -/
inductive CompileExn
  | compileError
  | otherException
  deriving DecidableEq, Repr

/-- One iteration of the compile loop body for a single module (lines
337-351): `parseErrorsEmpty` is `parseResult.errors.empty()`; `outcome` is
what `Luau::compileOrThrow` + `bcb.getBytecode()` would produce for this
module (`.ok bc` = a bytecode buffer, `.error e` = a thrown exception); and
`bytecode` is the artifact variable before this module. The result is the
artifact variable after this module, or an escaping exception. Only
`Luau::CompileError` is caught, and on a caught error the artifact is left
as it was (this module contributes nothing). -/
def compileModule (parseErrorsEmpty : Bool)
    (outcome : Except CompileExn (List Nat)) (bytecode : List Nat) :
    Except CompileExn (List Nat) :=
  if parseErrorsEmpty then
    match outcome with
    | .ok bc => .ok bc
    | .error .compileError => .ok bytecode
    | .error .otherException => .error .otherException
  else
    .ok bytecode

/-- The `for` loop over all modules (lines 332-352): each module carries
its `parseErrorsEmpty` flag and its compiler outcome; the `bytecode`
artifact threads through, retaining the last successful module's buffer. -/
def compileLoop (mods : List (Bool × Except CompileExn (List Nat)))
    (bytecode : List Nat) : Except CompileExn (List Nat) :=
  match mods with
  | [] => .ok bytecode
  | (pe, outcome) :: rest =>
    match compileModule pe outcome bytecode with
    | .ok bc => compileLoop rest bc
    | .error e => .error e

/-- Modelled from the spec: the contract of the external compiler
(`Luau::compileOrThrow` + `BytecodeBuilder::getBytecode`, which are not
part of the harness source) for a module with zero parse errors — "either
compile succeeds and yields a non-empty byte buffer, or compile fails with
a recoverable limit-violation signal — no third outcome". -/
def SpecCompilerContract (outcome : Except CompileExn (List Nat)) : Prop :=
  (∀ bc, outcome = .ok bc → bc ≠ []) ∧ outcome ≠ .error .otherException

/-! ## Claims about the check and compile stages -/

/-- C5: for every module set whose check passes throw only
`std::exception`-derived internal exceptions (which is what the analyzer's
internal errors are), the check loop completes normally — no exception
escapes the stage — and every module of the set is processed (the result
has one entry per module), i.e. a throwing module is skipped and checking
continues with the subsequent modules. -/
theorem check_stage_swallows_internal_exceptions
    (mods : List (Option CheckExn × Option CheckExn))
    (h : ∀ p ∈ mods, p.1 ≠ some CheckExn.nonStdException ∧
      p.2 ≠ some CheckExn.nonStdException) :
    ∃ rs, checkLoop mods = .ok rs ∧ rs.length = mods.length := by
  induction mods with
  | nil => exact ⟨[], rfl, rfl⟩
  | cons hd tl ih =>
    obtain ⟨rs, hrs, hlen⟩ := ih (fun p hp => h p (List.mem_cons_of_mem hd hp))
    obtain ⟨h1, h2⟩ := h hd (List.mem_cons_self hd tl)
    obtain ⟨p1, p2⟩ := hd
    have hr : ∃ r, checkModule p1 p2 = .ok r := by
      match p1, p2 with
      | some .stdException, _ => exact ⟨false, rfl⟩
      | some .nonStdException, _ => exact absurd rfl h1
      | none, some .stdException => exact ⟨true, rfl⟩
      | none, some .nonStdException => exact absurd rfl h2
      | none, none => exact ⟨true, rfl⟩
    obtain ⟨r, hr⟩ := hr
    refine ⟨r :: rs, ?_, by simp [hlen]⟩
    unfold checkLoop
    rw [hr, hrs]

/-- Witness for C5: two modules, the first throwing an internal
(std-derived) exception in its ordinary pass, the second in its
forced-autocomplete pass; the loop completes with an entry per module. -/
theorem check_stage_swallows_internal_exceptions_witness :
    ∃ rs,
      checkLoop [(some CheckExn.stdException, none), (none, some CheckExn.stdException)] =
          .ok rs ∧
        rs.length = 2 :=
  check_stage_swallows_internal_exceptions
    [(some CheckExn.stdException, none), (none, some CheckExn.stdException)]
    (by intro p hp; fin_cases hp <;> exact ⟨by decide, by decide⟩)

/-- C10: both check passes run inside a single handler catching only
`std::exception`-derived exceptions: if the ordinary pass throws such an
exception, the forced-autocomplete pass is not run at all (the module's
result is `false` whatever that pass would have done), every subsequent
module is still checked, and an exception not derived from `std::exception`
is not caught. -/
theorem check_single_handler_skips_second_pass (pass2 : Option CheckExn)
    (rest : List (Option CheckExn × Option CheckExn)) :
    checkModule (some CheckExn.stdException) pass2 = .ok false ∧
      (∀ rs, checkLoop rest = .ok rs →
        checkLoop ((some CheckExn.stdException, pass2) :: rest) = .ok (false :: rs)) ∧
      checkModule (some CheckExn.nonStdException) pass2 =
        .error CheckExn.nonStdException := by
  refine ⟨rfl, fun rs hrs => ?_, rfl⟩
  unfold checkLoop
  rw [hrs]
  rfl

/-- Witness for C10: the ordinary pass throws a std-derived exception while
the forced-autocomplete pass would throw an uncaught one; that second pass
is skipped and the following module is still checked. -/
theorem check_single_handler_skips_second_pass_witness :
    checkModule (some CheckExn.stdException) (some CheckExn.nonStdException) = .ok false ∧
      checkLoop [(some CheckExn.stdException, some CheckExn.nonStdException),
          (none, none)] =
        .ok [false, true] :=
  ⟨(check_single_handler_skips_second_pass (some CheckExn.nonStdException)
      [(none, none)]).1,
   (check_single_handler_skips_second_pass (some CheckExn.nonStdException)
      [(none, none)]).2.1 [true] rfl⟩

/-- C4: for every module with zero parse errors whose compiler obeys the
spec's contract, the compile stage has exactly two outcomes — success
yielding a non-empty bytecode buffer that becomes the artifact, or a caught
recoverable `Luau::CompileError` that leaves the artifact as it was — and
in both cases the loop proceeds to the next module; moreover no exception
other than `Luau::CompileError` is caught (any other escapes the stage). -/
theorem compile_stage_two_outcomes (outcome : Except CompileExn (List Nat))
    (bytecode : List Nat) (rest : List (Bool × Except CompileExn (List Nat)))
    (hc : SpecCompilerContract outcome) :
    ((∃ bc, bc ≠ [] ∧ outcome = .ok bc ∧
        compileModule true outcome bytecode = .ok bc ∧
        compileLoop ((true, outcome) :: rest) bytecode = compileLoop rest bc) ∨
      (outcome = .error CompileExn.compileError ∧
        compileModule true outcome bytecode = .ok bytecode ∧
        compileLoop ((true, outcome) :: rest) bytecode = compileLoop rest bytecode)) ∧
      compileModule true (.error CompileExn.otherException) bytecode =
        .error CompileExn.otherException := by
  obtain ⟨hne, hno⟩ := hc
  refine ⟨?_, rfl⟩
  match outcome with
  | .ok bc =>
    refine Or.inl ⟨bc, hne bc rfl, rfl, rfl, ?_⟩
    simp only [compileLoop, compileModule, if_true]
  | .error .compileError =>
    refine Or.inr ⟨rfl, rfl, ?_⟩
    simp only [compileLoop, compileModule, if_true]
  | .error .otherException => exact absurd rfl hno

/-- Witness for C4: a module compiling to the one-byte buffer `[0]` takes
the success branch and its buffer becomes the artifact. -/
theorem compile_stage_two_outcomes_witness :
    compileModule true (.ok [0]) [] = .ok [0] ∧
      compileLoop [(true, .ok [0])] [] = .ok [0] :=
  match compile_stage_two_outcomes (.ok [0]) [] []
      ⟨fun bc h => by injection h with h; rw [← h]; decide,
       fun h => Except.noConfusion h⟩ with
  | ⟨Or.inl ⟨bc, _, hbc, hm, hl⟩, _⟩ => by
    injection hbc with hbc
    subst hbc
    exact ⟨hm, by rw [hl]; rfl⟩
  | ⟨Or.inr ⟨hcontra, _, _⟩, _⟩ => Except.noConfusion hcontra

/-! ## CodeGenDriver: assembly-only path (fuzz/proto.cpp, lines 356-370)
and execution path `runCode` (lines 373-402)

Both paths are modelled as traces of the runtime API calls they make, so
that "never executes guest code" and the ordering of resume / collection /
assertion are statable. -/

/-- A runtime API call made by the harness on a `lua_State`. -/
inductive LuaAction
  | newstate
  | load
  | getAssembly
  | pop
  | gcCollect
  | newthread
  | sandboxthread
  | codegenCompile
  | setInterruptDeadline
  | resume
  | close
  deriving DecidableEq, Repr

/-- The body of the assembly-only codegen block (lines 360-369): load the
artifact; on load success lower it to assembly via
`Luau::CodeGen::getAssembly` (the returned assembly is discarded — the call
result is not bound); then pop and run a full GC cycle. -/
def codegenAssemblyTrace (loadOk : Bool) : List LuaAction :=
  .load :: ((if loadOk then [.getAssembly] else []) ++ [.pop, .gcCollect])

/-- One execution of the assembly-only codegen block (lines 356-370),
including the function-local `static lua_State* globalState =
luaL_newstate()` at line 358: `staticState` is the static variable's value
on entry (`none` before first initialization, `some s` afterwards),
`freshId` names the state `luaL_newstate` would create. Returns the state
the block operates on (which is also the static's value afterwards — the
static is never reassigned and the state never closed) and the trace of
runtime calls. -/
def codegenAssemblyPath (staticState : Option Nat) (freshId : Nat)
    (loadOk : Bool) : Nat × List LuaAction :=
  match staticState with
  | none => (freshId, .newstate :: codegenAssemblyTrace loadOk)
  | some s => (s, codegenAssemblyTrace loadOk)

/-- The ceiling `256 * 1024` in `LUAU_ASSERT(heapSize < 256 * 1024)`
(line 395). -/
def kAssertCeiling : Nat := 256 * 1024

/-- Outcome of one `runCode` call: normal return, or the fatal
`LUAU_ASSERT` firing (which aborts the process — it is an assertion, not
logging). -/
inductive RunOutcome
  | ok
  | assertionFailure
  deriving DecidableEq, Repr

/-- The runtime calls made by one `runCode(bytecode, useCodegen)` call
(lines 377-396): create and sandbox a fresh guest thread, load the
artifact; on load success optionally lower it to native code, arm the
interrupt deadline and resume the thread once; then (unconditionally) pop
and force a full collection cycle. -/
def runCodeTrace (loadOk useCodegen : Bool) : List LuaAction :=
  [.newthread, .sandboxthread, .load] ++
    (if loadOk then
      (if useCodegen then [LuaAction.codegenCompile] else []) ++
        [.setInterruptDeadline, .resume]
    else []) ++
    [.pop, .gcCollect]

/-- One `runCode` call (lines 377-396): `postGCHeapSize` is the tracked
`heapSize` after the final forced collection; the call ends with
`LUAU_ASSERT(heapSize < 256 * 1024)`, fatal when violated. -/
def runCode (loadOk useCodegen : Bool) (postGCHeapSize : Nat) :
    RunOutcome × List LuaAction :=
  (if postGCHeapSize < kAssertCeiling then .ok else .assertionFailure,
   runCodeTrace loadOk useCodegen)

/-! ## Claims about the codegen and execution paths -/

/-- C6 counterexample: the claim calls the assembly path's runtime instance
"disposable, short-lived". The instance is a function-local `static`: an
invocation that finds the static already initialized (here holding state
`0`) reuses that same state and creates no new one, and no invocation ever
closes the state — so the instance outlives every invocation and is
neither created per use nor disposed. -/
theorem codegen_assembly_state_not_short_lived :
    (codegenAssemblyPath (some 0) 1 true).1 = 0 ∧
      LuaAction.newstate ∉ (codegenAssemblyPath (some 0) 1 true).2 ∧
      LuaAction.close ∉ (codegenAssemblyPath none 0 true).2 := by
  decide

/-- C6 (amended): the assembly-only codegen path loads the compiled
artifact into a separate runtime instance — created lazily once and then
reused across iterations, never destroyed — used purely to lower the
artifact to target-machine assembly whose result is discarded; it never
executes guest code (no resume of a guest thread ever appears in its
trace, and every call it makes is one of state creation, load, assembly
lowering, pop, or collection). -/
theorem codegen_assembly_no_guest_execution (staticState : Option Nat)
    (freshId : Nat) (loadOk : Bool) :
    LuaAction.resume ∉ (codegenAssemblyPath staticState freshId loadOk).2 ∧
      (∀ a ∈ (codegenAssemblyPath staticState freshId loadOk).2,
        a = .newstate ∨ a = .load ∨ a = .getAssembly ∨ a = .pop ∨ a = .gcCollect) ∧
      (loadOk = true →
        LuaAction.getAssembly ∈ (codegenAssemblyPath staticState freshId loadOk).2) := by
  cases staticState <;> cases loadOk <;>
    simp [codegenAssemblyPath, codegenAssemblyTrace]

/-- Witness for C6 (amended) at a concrete input: first invocation, load
succeeds. -/
theorem codegen_assembly_no_guest_execution_witness :
    LuaAction.resume ∉ (codegenAssemblyPath none 0 true).2 ∧
      LuaAction.getAssembly ∈ (codegenAssemblyPath none 0 true).2 :=
  ⟨(codegen_assembly_no_guest_execution none 0 true).1,
   (codegen_assembly_no_guest_execution none 0 true).2.2 rfl⟩

/-- C7: for every artifact that reaches the execution path (load succeeds,
so the thread is resumed), the trace of `runCode` contains the resume
followed (later) by a forced full collection cycle, and the call's outcome
is normal exactly when the tracked post-collection heap usage is strictly
below the fixed ceiling `256 * 1024`; a violation of that bound makes the
fatal `LUAU_ASSERT` fire. -/
theorem runCode_leak_oracle (useCodegen : Bool) (postGCHeapSize : Nat) :
    [LuaAction.resume, LuaAction.gcCollect].Sublist
        (runCode true useCodegen postGCHeapSize).2 ∧
      ((runCode true useCodegen postGCHeapSize).1 = .ok ↔
        postGCHeapSize < kAssertCeiling) ∧
      (kAssertCeiling ≤ postGCHeapSize →
        (runCode true useCodegen postGCHeapSize).1 = .assertionFailure) := by
  refine ⟨?_, ?_, ?_⟩
  · have h2 : (runCode true useCodegen postGCHeapSize).2 = runCodeTrace true useCodegen :=
      rfl
    rw [h2]
    cases useCodegen <;> decide
  · unfold runCode
    by_cases h : postGCHeapSize < kAssertCeiling
    · rw [if_pos h]
      exact ⟨fun _ => h, fun _ => rfl⟩
    · rw [if_neg h]
      exact ⟨fun hc => by simp at hc, fun hc => absurd hc h⟩
  · intro h
    unfold runCode
    rw [if_neg (not_lt.mpr h)]

/-- Witness for C7 at concrete inputs: under codegen with 16 bytes still
tracked after collection the run ends normally; with the ceiling exactly
reached, the assertion fires. -/
theorem runCode_leak_oracle_witness :
    (runCode true true 16).1 = .ok ∧
      (runCode true true 262144).1 = .assertionFailure :=
  ⟨((runCode_leak_oracle true 16).2.1).mpr (by decide),
   (runCode_leak_oracle true 262144).2.2 (by decide)⟩

/-! ## TypeEnvironmentBuilder: `registerTypes` and `setupFrontend`
(fuzz/proto.cpp, lines 104-164)

The global type arena is modelled as a list of type nodes indexed by
position (`TypeId` = index); `addType` appends and returns the new node's
index, mirroring arena allocation order. `getMutable<...>(id)->props = ...`
becomes an in-place update of the node at `id`. -/

/-- A type node held in the model of the global `TypeArena`. `primNumber` /
`primString` stand for `builtinTypes.numberType` / `stringType`;
`otherType` stands for any node installed by the external
`registerBuiltinGlobals` whose shape the harness does not touch. -/
inductive LType
  | primNumber
  | primString
  | classType (name : String) (props : List (String × Nat)) (parent : Option Nat)
      (metatable : Option Nat)
  | tableType (props : List (String × Nat))
  | functionType (argTypes retTypes : List Nat)
  | otherType
  deriving DecidableEq, Repr

/-- Model of one `Luau::GlobalTypes` scope: its global type arena, the
global scope's `exportedTypeBindings` (name-to-type association), the set
of type ids marked long-lived by `persist`, and whether the arena has been
frozen. -/
structure GlobalTypesModel where
  arena : List LType
  exportedTypeBindings : List (String × Nat)
  persisted : List Nat
  frozen : Bool
  deriving DecidableEq, Repr

/-- Models `arena.addType(t)`: append a node, returning the updated scope and the
new node's id. -/
def addType (g : GlobalTypesModel) (t : LType) : GlobalTypesModel × Nat :=
  ({ g with arena := g.arena ++ [t] }, g.arena.length)

/-- Replace the `props` of a class or table node, leaving every other field
(and any other node shape) unchanged — the effect of
`getMutable<ClassType/TableType>(id)->props = ...`. -/
def withProps (t : LType) (props : List (String × Nat)) : LType :=
  match t with
  | .classType name _ parent metatable => .classType name props parent metatable
  | .tableType _ => .tableType props
  | t => t

/-- In-place update of node `id`'s props. -/
def setProps (g : GlobalTypesModel) (id : Nat) (props : List (String × Nat)) :
    GlobalTypesModel :=
  { g with arena := g.arena.set id (withProps (g.arena.getD id .otherType) props) }

/-- Models `globals.globalScope->exportedTypeBindings[name] = ...`: map insertion
with overwrite. -/
def setExported (g : GlobalTypesModel) (name : String) (id : Nat) :
    GlobalTypesModel :=
  { g with exportedTypeBindings :=
      g.exportedTypeBindings.filter (fun p => p.1 != name) ++ [(name, id)] }

/-- Models `registerTypes(frontend, globals, forAutocomplete)` (lines 104-150),
starting from `g0`, the scope state just after the external
`Luau::registerBuiltinGlobals` call, with `nId` / `sId` the arena ids of
`builtinTypes.numberType` / `stringType`: declare the `Vector3` stub (a
class with an attached table-shaped metatype holding `__add :
(Vector3, Vector3) → Vector3`, then fields X, Y, Z of number type), the
parentless `Instance` stub with string-typed `Name`, and the `Part` stub
inheriting from `Instance` with `Position : Vector3`; export the three
under those fixed names; finally `persist` every exported type binding. -/
def registerTypes (g0 : GlobalTypesModel) (nId sId : Nat) : GlobalTypesModel :=
  let r1 := addType g0 (.tableType [])
  let g1 := r1.1
  let vector3MetaType := r1.2
  let r2 := addType g1 (.classType "Vector3" [] none (some vector3MetaType))
  let g2 := r2.1
  let vector3InstanceType := r2.2
  let g3 := setProps g2 vector3InstanceType
    [("X", nId), ("Y", nId), ("Z", nId)]
  let r4 := addType g3
    (.functionType [vector3InstanceType, vector3InstanceType] [vector3InstanceType])
  let g4 := r4.1
  let addFn := r4.2
  let g5 := setProps g4 vector3MetaType [("__add", addFn)]
  let g6 := setExported g5 "Vector3" vector3InstanceType
  let r7 := addType g6 (.classType "Instance" [] none none)
  let g7 := r7.1
  let instanceType := r7.2
  let g8 := setProps g7 instanceType [("Name", sId)]
  let g9 := setExported g8 "Instance" instanceType
  let r10 := addType g9 (.classType "Part" [] (some instanceType) none)
  let g10 := r10.1
  let partType := r10.2
  let g11 := setProps g10 partType [("Position", vector3InstanceType)]
  let g12 := setExported g11 "Part" partType
  { g12 with persisted := g12.persisted ++ g12.exportedTypeBindings.map Prod.snd }

/-- Models `Luau::freeze(globals.globalTypes)`: mark the arena frozen (after which
any mutation fails loudly by assertion). -/
def freeze (g : GlobalTypesModel) : GlobalTypesModel :=
  { g with frozen := true }

/-- What `setupFrontend` (lines 152-164) does to one scope: `registerTypes`
followed by `Luau::freeze` of the scope's arena. -/
def setupScope (g0 : GlobalTypesModel) (nId sId : Nat) : GlobalTypesModel :=
  freeze (registerTypes g0 nId sId)

/-- Model of `setupFrontend` applying the same construction to both global scopes:
the ordinary one (`frontend.globals`) and the forced-autocomplete one
(`frontend.globalsForAutocomplete`), each starting from its own
post-`registerBuiltinGlobals` state. -/
def setupFrontend (ordinary autocomplete : GlobalTypesModel)
    (nId sId nIdA sIdA : Nat) : GlobalTypesModel × GlobalTypesModel :=
  (setupScope ordinary nId sId, setupScope autocomplete nIdA sIdA)

/-! ## List helper lemmas for arena index arithmetic -/

theorem set_append_shift {α : Type} (A l : List α) (i : Nat) (x : α) :
    (A ++ l).set (A.length + i) x = A ++ l.set i x := by
  rw [List.set_append, if_neg (by omega), Nat.add_sub_cancel_left]

theorem getD_append_shift {α : Type} (A l : List α) (i : Nat) (d : α) :
    (A ++ l).getD (A.length + i) d = l.getD i d := by
  rw [List.getD_append_right A l d _ (by omega), Nat.add_sub_cancel_left]

theorem set_append_shift0 {α : Type} (A l : List α) (x : α) :
    (A ++ l).set A.length x = A ++ l.set 0 x := by
  have h := set_append_shift A l 0 x
  rw [Nat.add_zero] at h
  exact h

theorem getD_append_shift0 {α : Type} (A l : List α) (d : α) :
    (A ++ l).getD A.length d = l.getD 0 d := by
  have h := getD_append_shift A l 0 d
  rw [Nat.add_zero] at h
  exact h

/-- Closed form of `registerTypes` over an arbitrary post-builtins scope
state whose exported bindings do not already use the three stub names. -/
theorem registerTypes_eq (g0 : GlobalTypesModel) (nId sId : Nat)
    (hV : ∀ p ∈ g0.exportedTypeBindings, p.1 ≠ "Vector3")
    (hI : ∀ p ∈ g0.exportedTypeBindings, p.1 ≠ "Instance")
    (hP : ∀ p ∈ g0.exportedTypeBindings, p.1 ≠ "Part") :
    registerTypes g0 nId sId =
      { arena := g0.arena ++
          [.tableType [("__add", g0.arena.length + 2)],
           .classType "Vector3" [("X", nId), ("Y", nId), ("Z", nId)] none
             (some g0.arena.length),
           .functionType [g0.arena.length + 1, g0.arena.length + 1]
             [g0.arena.length + 1],
           .classType "Instance" [("Name", sId)] none none,
           .classType "Part" [("Position", g0.arena.length + 1)]
             (some (g0.arena.length + 3)) none],
        exportedTypeBindings := g0.exportedTypeBindings ++
          [("Vector3", g0.arena.length + 1), ("Instance", g0.arena.length + 3),
           ("Part", g0.arena.length + 4)],
        persisted := g0.persisted ++
          (g0.exportedTypeBindings.map Prod.snd ++
            [g0.arena.length + 1, g0.arena.length + 3, g0.arena.length + 4]),
        frozen := g0.frozen } := by
  have hV2 : g0.exportedTypeBindings.filter (fun p => p.1 != "Vector3") =
      g0.exportedTypeBindings :=
    List.filter_eq_self.mpr (fun a ha => bne_iff_ne.mpr (hV a ha))
  have hI2 : g0.exportedTypeBindings.filter (fun p => p.1 != "Instance") =
      g0.exportedTypeBindings :=
    List.filter_eq_self.mpr (fun a ha => bne_iff_ne.mpr (hI a ha))
  have hP2 : g0.exportedTypeBindings.filter (fun p => p.1 != "Part") =
      g0.exportedTypeBindings :=
    List.filter_eq_self.mpr (fun a ha => bne_iff_ne.mpr (hP a ha))
  simp [registerTypes, addType, setProps, setExported, withProps,
    set_append_shift, getD_append_shift, set_append_shift0, getD_append_shift0,
    List.filter_append, hV2, hI2, hP2, List.append_assoc,
    List.getElem_append_right, Nat.add_sub_cancel_left, Nat.le_add_right]

/-- C8: per global scope (the construction being performed once per process
for each of the two scopes, as the final conjunct makes explicit),
`setupFrontend`'s work on a scope declares exactly five new arena nodes of
which exactly three are stub nominal (class) types — `Vector3` with three
number-typed fields and an attached table-shaped metatype holding its
single `__add` operator of type `(Vector3, Vector3) → Vector3`; the
parentless `Instance` with one string-typed field `Name`; and `Part`
inheriting from `Instance` adding the single field `Position : Vector3` —
exports the three under those fixed names, persists every exported type
binding, and freezes the scope's type arena. -/
theorem typeEnvironment_construction (g0 gA : GlobalTypesModel) (nId sId nIdA sIdA : Nat)
    (hV : ∀ p ∈ g0.exportedTypeBindings, p.1 ≠ "Vector3")
    (hI : ∀ p ∈ g0.exportedTypeBindings, p.1 ≠ "Instance")
    (hP : ∀ p ∈ g0.exportedTypeBindings, p.1 ≠ "Part") :
    setupScope g0 nId sId =
        { arena := g0.arena ++
            [.tableType [("__add", g0.arena.length + 2)],
             .classType "Vector3" [("X", nId), ("Y", nId), ("Z", nId)] none
               (some g0.arena.length),
             .functionType [g0.arena.length + 1, g0.arena.length + 1]
               [g0.arena.length + 1],
             .classType "Instance" [("Name", sId)] none none,
             .classType "Part" [("Position", g0.arena.length + 1)]
               (some (g0.arena.length + 3)) none],
          exportedTypeBindings := g0.exportedTypeBindings ++
            [("Vector3", g0.arena.length + 1), ("Instance", g0.arena.length + 3),
             ("Part", g0.arena.length + 4)],
          persisted := g0.persisted ++
            (g0.exportedTypeBindings.map Prod.snd ++
              [g0.arena.length + 1, g0.arena.length + 3, g0.arena.length + 4]),
          frozen := true } ∧
      (∀ p ∈ (setupScope g0 nId sId).exportedTypeBindings,
        p.2 ∈ (setupScope g0 nId sId).persisted) ∧
      setupFrontend g0 gA nId sId nIdA sIdA =
        (setupScope g0 nId sId, setupScope gA nIdA sIdA) := by
  have hmain : setupScope g0 nId sId =
      { arena := g0.arena ++
          [.tableType [("__add", g0.arena.length + 2)],
           .classType "Vector3" [("X", nId), ("Y", nId), ("Z", nId)] none
             (some g0.arena.length),
           .functionType [g0.arena.length + 1, g0.arena.length + 1]
             [g0.arena.length + 1],
           .classType "Instance" [("Name", sId)] none none,
           .classType "Part" [("Position", g0.arena.length + 1)]
             (some (g0.arena.length + 3)) none],
        exportedTypeBindings := g0.exportedTypeBindings ++
          [("Vector3", g0.arena.length + 1), ("Instance", g0.arena.length + 3),
           ("Part", g0.arena.length + 4)],
        persisted := g0.persisted ++
          (g0.exportedTypeBindings.map Prod.snd ++
            [g0.arena.length + 1, g0.arena.length + 3, g0.arena.length + 4]),
        frozen := true } := by
    unfold setupScope
    rw [registerTypes_eq g0 nId sId hV hI hP]
    rfl
  refine ⟨hmain, ?_, rfl⟩
  intro p hp
  rw [hmain] at hp ⊢
  simp only [List.mem_append] at hp ⊢
  rcases hp with h | h
  · exact Or.inr (Or.inl (List.mem_map_of_mem Prod.snd h))
  · simp only [List.mem_cons, List.not_mem_nil, or_false] at h
    rcases h with h | h | h <;> (rw [h]; simp)

/-- A concrete post-builtins scope state holding just the number and string
primitives (at arena ids 0 and 1) and no exported bindings; used to
instantiate the construction theorem. -/
def builtinSeedScope : GlobalTypesModel :=
  { arena := [LType.primNumber, LType.primString]
    exportedTypeBindings := []
    persisted := []
    frozen := false }

/-- Witness for C8 at the concrete seed scope. -/
theorem typeEnvironment_construction_witness :
    setupScope builtinSeedScope 0 1 =
      { arena := [LType.primNumber, LType.primString,
          .tableType [("__add", 4)],
          .classType "Vector3" [("X", 0), ("Y", 0), ("Z", 0)] none (some 2),
          .functionType [3, 3] [3],
          .classType "Instance" [("Name", 1)] none none,
          .classType "Part" [("Position", 3)] (some 5) none],
        exportedTypeBindings := [("Vector3", 3), ("Instance", 5), ("Part", 6)],
        persisted := [3, 5, 6],
        frozen := true } :=
  (typeEnvironment_construction builtinSeedScope builtinSeedScope 0 1 0 1
    (fun _ hp => nomatch hp) (fun _ hp => nomatch hp) (fun _ hp => nomatch hp)).1

end LuauFuzz
